import Mathlib

/-!
Verification of the trigger/daemon core of the `telegram-telethon` package:
the event router (`daemon/handlers.py`), the debounce manager
(`daemon/handlers.py`), the Claude subprocess bridge
(`daemon/claude_bridge.py`) and the daemon runner (`daemon/runner.py`).

The Python code is shallowly embedded: each Python function becomes a Lean
function over explicit state; `asyncio` timers become explicit
schedule/fire events; the external `claude` subprocess becomes an oracle
value describing one invocation's outcome; raised Python exceptions become
an explicit `Except` / error component.  String-valued wire fields
(`result`, `session_id`, `error`) are modelled as strings, matching the
declared dataclass types and the CLI's JSON output format.
-/

set_option linter.unusedVariables false

namespace TelegramTelethon

/-! ## JSON values (the decoded output of Python's `json.loads`) -/

/-- A JSON value as produced by `json.loads`.  Numbers are modelled as
integers; no claim depends on fractional numbers. -/
inductive Json where
  | null
  | bool (b : Bool)
  | num (n : Int)
  | str (s : String)
  | arr (elems : List Json)
  | obj (kvs : List (String × Json))

/-- Python truthiness of a JSON value (`bool(x)` for decoded JSON). -/
def Json.truthy : Json → Bool
  | .null => false
  | .bool b => b
  | .num n => n ≠ 0
  | .str s => s ≠ ""
  | .arr elems => !elems.isEmpty
  | .obj kvs => !kvs.isEmpty

/-- `dict.get(k)` on a decoded JSON object: first binding of the key. -/
def jsonGet (kvs : List (String × Json)) (k : String) : Option Json :=
  match kvs with
  | [] => none
  | (k', v) :: rest => if k' = k then some v else jsonGet rest k

/-- `k in d` on a decoded JSON object. -/
def jsonHasKey (kvs : List (String × Json)) (k : String) : Bool :=
  (jsonGet kvs k).isSome

/-- `d.get(k)` restricted to string values: yields the string when the key
is bound to a JSON string, `none` otherwise.  Used for the wire fields the
dataclasses declare as `Optional[str]`. -/
def jsonGetStr (kvs : List (String × Json)) (k : String) : Option String :=
  match jsonGet kvs k with
  | some (.str s) => some s
  | _ => none

/-- Python exceptions that the embedded code can raise or catch. -/
inductive PyExn where
  | attributeError
  | typeError
  | valueError
  | keyError
  deriving DecidableEq

/-- Python truthiness of an `Optional[str]`: `None` and `""` are falsy. -/
def pyTruthyStr : Option String → Bool
  | none => false
  | some s => s ≠ ""

/-- Python `str.strip()` whitespace set (ASCII part). -/
def isPyWhitespaceChar (c : Char) : Bool :=
  c = ' ' || c = '\t' || c = '\n' || c = '\r' || c = Char.ofNat 11 || c = Char.ofNat 12

/-- Python `str.strip()`: drop leading and trailing whitespace. -/
def pyStrip (s : String) : String :=
  String.mk (((s.data.dropWhile isPyWhitespaceChar).reverse.dropWhile isPyWhitespaceChar).reverse)

/-- Python `str.upper()` (ASCII case mapping suffices for the sentinel). -/
def pyUpper (s : String) : String :=
  String.mk (s.data.map Char.toUpper)

/-- Does the second list start with the first? -/
def listStartsWith : List Char → List Char → Bool
  | [], _ => true
  | _ :: _, [] => false
  | c :: cs, x :: xs => (c = x) && listStartsWith cs xs

/-- Substring containment over character lists (Python `needle in hay`
for strings). -/
def listHasSub (needle : List Char) : List Char → Bool
  | [] => listStartsWith needle []
  | x :: xs => listStartsWith needle (x :: xs) || listHasSub needle xs

/-- Accumulate a decimal digit string. -/
def parseDigits : List Char → Option Nat
  | [] => none
  | ds => ds.foldl (fun acc c =>
      acc.bind fun n => if c.isDigit then some (n * 10 + (c.toNat - 48)) else none) (some 0)

/-- Python `int(key)` on a string: optional sign then decimal digits;
`none` is the `ValueError` case.  (Python also tolerates surrounding
whitespace and underscores; those inputs do not occur in files this
program writes.) -/
def pyParseInt (s : String) : Option Int :=
  match s.data with
  | '-' :: ds => (parseDigits ds).map fun n => -(n : Int)
  | '+' :: ds => (parseDigits ds).map fun n => (n : Int)
  | ds => (parseDigits ds).map fun n => (n : Int)

/-! ## Python `dict` as an association list

CPython dictionaries preserve insertion order; assignment to an existing
key overwrites in place, assignment to a fresh key appends.  The keys in
any list built by these operations are pairwise distinct. -/

/-- `d.get(k)` / `d[k]` lookup. -/
def dictGet {K V : Type} [DecidableEq K] : List (K × V) → K → Option V
  | [], _ => none
  | (k', v) :: rest, k => if k' = k then some v else dictGet rest k

/-- `d[k] = v`: overwrite in place, or append when the key is fresh. -/
def dictSet {K V : Type} [DecidableEq K] : List (K × V) → K → V → List (K × V)
  | [], k, v => [(k, v)]
  | (k', v') :: rest, k, v =>
    if k' = k then (k, v) :: rest else (k', v') :: dictSet rest k v

/-- `del d[k]`: remove the (unique) binding of the key, if any. -/
def dictRemove {K V : Type} [DecidableEq K] : List (K × V) → K → List (K × V)
  | [], _ => []
  | (k', v') :: rest, k => if k' = k then rest else (k', v') :: dictRemove rest k

theorem dictGet_set_self {K V : Type} [DecidableEq K] (l : List (K × V)) (k : K) (v : V) :
    dictGet (dictSet l k v) k = some v := by
  induction l with
  | nil => simp [dictGet, dictSet]
  | cons hd tl ih =>
    obtain ⟨k', v'⟩ := hd
    by_cases h : k' = k <;> simp [dictGet, dictSet, h, ih]

theorem dictGet_set_ne {K V : Type} [DecidableEq K] (l : List (K × V)) (k k' : K) (v : V)
    (h : k' ≠ k) : dictGet (dictSet l k v) k' = dictGet l k' := by
  have hne : k ≠ k' := Ne.symm h
  induction l with
  | nil => simp [dictGet, dictSet, hne]
  | cons hd tl ih =>
    obtain ⟨k₀, v₀⟩ := hd
    by_cases h₀ : k₀ = k
    · subst h₀
      simp [dictGet, dictSet, hne]
    · simp only [dictSet, if_neg h₀]
      simp [dictGet, ih]

theorem dictSet_set_self {K V : Type} [DecidableEq K] (l : List (K × V)) (k : K) (v w : V) :
    dictSet (dictSet l k v) k w = dictSet l k w := by
  induction l with
  | nil => simp [dictSet]
  | cons hd tl ih =>
    obtain ⟨k', v'⟩ := hd
    by_cases h : k' = k <;> simp [dictSet, h, ih]

theorem dictRemove_set_of_absent {K V : Type} [DecidableEq K] (l : List (K × V)) (k : K) (v : V)
    (h : dictGet l k = none) : dictRemove (dictSet l k v) k = l := by
  induction l with
  | nil => simp [dictSet, dictRemove]
  | cons hd tl ih =>
    obtain ⟨k', v'⟩ := hd
    by_cases hk : k' = k
    · simp [dictGet, hk] at h
    · simp only [dictGet, if_neg hk] at h
      simp [dictSet, dictRemove, hk, ih h]

theorem mem_dictSet_key {K V : Type} [DecidableEq K] (l : List (K × V)) (k : K) (v : V)
    (p : K × V) (hp : p ∈ dictSet l k v) : p.1 = k ∨ p ∈ l := by
  induction l with
  | nil =>
    simp only [dictSet, List.mem_singleton] at hp
    subst hp
    exact Or.inl rfl
  | cons hd tl ih =>
    obtain ⟨k₀, v₀⟩ := hd
    by_cases h₀ : k₀ = k
    · subst h₀
      simp only [dictSet, if_pos rfl, List.mem_cons, if_true, eq_self_iff_true, ite_true] at hp
      rcases hp with h₁ | h₁
      · subst h₁
        exact Or.inl rfl
      · exact Or.inr (List.mem_cons_of_mem _ h₁)
    · simp only [dictSet, if_neg h₀, List.mem_cons] at hp
      rcases hp with h₁ | h₁
      · exact Or.inr (List.mem_cons.mpr (Or.inl h₁))
      · rcases ih h₁ with h₂ | h₂
        · exact Or.inl h₂
        · exact Or.inr (List.mem_cons_of_mem _ h₂)

theorem dictSet_keys_nodup {K V : Type} [DecidableEq K] (l : List (K × V)) (k : K) (v : V)
    (h : (l.map Prod.fst).Nodup) : ((dictSet l k v).map Prod.fst).Nodup := by
  induction l with
  | nil => simp [dictSet]
  | cons hd tl ih =>
    obtain ⟨k', v'⟩ := hd
    simp only [List.map_cons, List.nodup_cons] at h
    by_cases hk : k' = k
    · subst hk
      simpa [dictSet] using h
    · have hmem : k' ∉ (dictSet tl k v).map Prod.fst := by
        intro hm
        rcases List.mem_map.mp hm with ⟨⟨k₀, v₀⟩, hk₀, hfst⟩
        rcases mem_dictSet_key tl k v (k₀, v₀) hk₀ with h₂ | h₂
        · exact hk (hfst ▸ h₂ ▸ rfl)
        · exact h.1 (List.mem_map.mpr ⟨(k₀, v₀), h₂, hfst⟩)
      simp only [dictSet, if_neg hk, List.map_cons, List.nodup_cons]
      exact ⟨hmem, ih h.2⟩

/-! ## Regular expressions

`TriggerConfig.__post_init__` compiles `pattern` with `re.compile`; the
compiled pattern is used through `re.Pattern.match`, which matches
anchored at the start of the string (a prefix match, not a substring
search).  The standard-library engine is embedded as a small backtracking
matcher over a regex AST: alternation prefers the left branch, repetition
is greedy, `.` does not match a newline, and capturing groups record the
characters consumed by their subexpression (the last iteration wins), as
in CPython's `re`.  Group indices follow `re` numbering (1-based, in order
of opening parenthesis). -/

inductive Regex where
  | eps
  | eos
  | char (c : Char)
  | anyChar
  | concat (r₁ r₂ : Regex)
  | alt (r₁ r₂ : Regex)
  | star (r : Regex)
  | group (idx : Nat) (r : Regex)
  deriving DecidableEq

/-- Number of capturing groups (`re.Pattern.groups`): in a pattern produced
by `re.compile`, groups are numbered consecutively from 1, so the largest
index is the group count. -/
def Regex.numGroups : Regex → Nat
  | .eps | .eos | .char _ | .anyChar => 0
  | .concat r₁ r₂ | .alt r₁ r₂ => max r₁.numGroups r₂.numGroups
  | .star r => r.numGroups
  | .group idx r => max idx r.numGroups

/-- Structural size, used only to pick a sufficient fuel bound. -/
def Regex.size : Regex → Nat
  | .eps | .eos | .char _ | .anyChar => 1
  | .concat r₁ r₂ | .alt r₁ r₂ => r₁.size + r₂.size + 1
  | .star r | .group _ r => r.size + 1

/-- One group slot: the characters last captured by that group, if any. -/
abbrev GroupState := List (Option (List Char))

/-- Backtracking runs of a regex against (a prefix of) `s`, in the
engine's preference order: each result is the remaining input paired with
the group state.  `fuel` bounds recursion depth; every call decreases it.
Repetition is greedy and an iteration must consume input (CPython stops
repeating a subexpression that matched the empty string). -/
def Regex.runs : Nat → Regex → List Char → GroupState → List (List Char × GroupState)
  | 0, _, _, _ => []
  | fuel + 1, r, s, g =>
    match r with
    | .eps => [(s, g)]
    | .eos => match s with
      | [] => [([], g)]
      | _ :: _ => []
    | .char c => match s with
      | [] => []
      | x :: xs => if x = c then [(xs, g)] else []
    | .anyChar => match s with
      | [] => []
      | x :: xs => if x = '\n' then [] else [(xs, g)]
    | .concat r₁ r₂ =>
      (Regex.runs fuel r₁ s g).flatMap fun p => Regex.runs fuel r₂ p.1 p.2
    | .alt r₁ r₂ => Regex.runs fuel r₁ s g ++ Regex.runs fuel r₂ s g
    | .star r₁ =>
      (((Regex.runs fuel r₁ s g).filter fun p => p.1.length < s.length).flatMap
        fun p => Regex.runs fuel (.star r₁) p.1 p.2) ++ [(s, g)]
    | .group idx r₁ =>
      (Regex.runs fuel r₁ s g).map fun p =>
        (p.1, p.2.set (idx - 1) (some (s.take (s.length - p.1.length))))

/-- Declarative matching semantics of the regex AST: `RMatches r s` holds
when `r` matches exactly the string `s`.  Used to state that the engine is
anchored: a successful `match_message` exhibits a *prefix* of the input,
starting at position 0, in this relation. -/
inductive RMatches : Regex → List Char → Prop where
  | eps : RMatches .eps []
  | eos : RMatches .eos []
  | char (c : Char) : RMatches (.char c) [c]
  | anyChar (c : Char) (h : c ≠ '\n') : RMatches .anyChar [c]
  | concat {r₁ r₂ : Regex} {s₁ s₂ : List Char} :
      RMatches r₁ s₁ → RMatches r₂ s₂ → RMatches (.concat r₁ r₂) (s₁ ++ s₂)
  | altL {r₁ r₂ : Regex} {s : List Char} : RMatches r₁ s → RMatches (.alt r₁ r₂) s
  | altR {r₁ r₂ : Regex} {s : List Char} : RMatches r₂ s → RMatches (.alt r₁ r₂) s
  | starNil {r : Regex} : RMatches (.star r) []
  | starCons {r : Regex} {s₁ s₂ : List Char} :
      RMatches r s₁ → RMatches (.star r) s₂ → RMatches (.star r) (s₁ ++ s₂)
  | group {idx : Nat} {r : Regex} {s : List Char} :
      RMatches r s → RMatches (.group idx r) s

/-- The result of a successful `re.Pattern.match`: the tuple
`match.groups()`, one entry per capturing group of the pattern. -/
structure ReMatch where
  groups : List (Option String)
  deriving DecidableEq

/-- `match.group(1)`; only evaluated when the pattern has a group. -/
def ReMatch.group1 (m : ReMatch) : Option String :=
  (m.groups.head?).getD none

/-! ## `TriggerConfig` (core/config.py) -/

/-- A single daemon trigger (`core/config.py`, `TriggerConfig`).  The
`compiled` field stands for `_compiled`, the `re.compile(pattern)` result
produced by `__post_init__`; patterns that fail to compile raise
`ConfigError` at load time and never reach the daemon, so only compiled
patterns are modelled. -/
structure TriggerConfig where
  chat : String
  pattern : String
  action : String
  reply_mode : String := "inline"
  reply_text : Option String := none
  debounce_seconds : Nat := 0
  system_prompt : Option String := none
  compiled : Regex
  deriving DecidableEq

/-- `TriggerConfig.matches_chat`: the wildcard selector matches every chat,
otherwise case-insensitive exact equality. -/
def TriggerConfig.matches_chat (t : TriggerConfig) (chat_name : String) : Bool :=
  if t.chat = "*" then true
  else t.chat.toLower = chat_name.toLower

/-- `TriggerConfig.match_message`: `self.compiled_pattern.match(text)` —
an anchored match of the compiled pattern against the text.  The first
backtracking run is the match `re` reports. -/
def TriggerConfig.match_message (t : TriggerConfig) (text : String) : Option ReMatch :=
  let cs := text.data
  let init : GroupState := List.replicate t.compiled.numGroups none
  match Regex.runs ((t.compiled.size + 2) * (cs.length + 2)) t.compiled cs init with
  | [] => none
  | (_, g) :: _ => some ⟨g.map (Option.map fun l => String.mk l)⟩

/-! ## `EventRouter` (daemon/handlers.py) -/

/-- `RouteMatch`: result of matching an event to a trigger. -/
structure RouteMatch where
  trigger : TriggerConfig
  captured_text : Option String := none
  match_object : Option ReMatch := none
  deriving DecidableEq

/-- `EventRouter.match`: iterate the triggers in declaration order; skip a
trigger whose chat does not match; on the first trigger whose pattern also
matches, return it, capturing group 1 when the match has groups. -/
def EventRouter.match : List TriggerConfig → String → String → Option RouteMatch
  | [], _, _ => none
  | trigger :: rest, chat_name, message_text =>
    if trigger.matches_chat chat_name then
      match trigger.match_message message_text with
      | some m =>
        some { trigger := trigger
               captured_text := if m.groups.isEmpty then none else m.group1
               match_object := some m }
      | none => EventRouter.match rest chat_name message_text
    else EventRouter.match rest chat_name message_text

/-! Spec-side restatement of the router contract (spec §4.1), used to
compare the code's router against the specification's words. -/

/-- Modelled from the spec's words: "wildcard selector matches any chat
name, case-insensitive exact match otherwise". -/
def specMatchesChat (t : TriggerConfig) (chat_name : String) : Bool :=
  (t.chat = "*") || (t.chat.toLower = chat_name.toLower)

/-- Modelled from the spec's words: the first rule in declaration order
whose chat selector and pattern both match wins; `captured_text` is group 1
when the regex has a capturing group, `None` otherwise. -/
def specRouterMatch (ts : List TriggerConfig) (chat_name message_text : String) :
    Option RouteMatch :=
  (ts.find? fun t => specMatchesChat t chat_name && (t.match_message message_text).isSome).map
    fun t =>
      { trigger := t
        captured_text :=
          match t.match_message message_text with
          | some m => if 0 < t.compiled.numGroups then m.group1 else none
          | none => none
        match_object := t.match_message message_text }

/-! ## `DebounceManager` (daemon/handlers.py)

The cooperative `asyncio` timers are modelled by explicit events: a
`schedule` call is the arrival of a matched message, and `fireTimer key`
is the completion of the (sole live) timer for `key` — the tail of
`_wait_and_execute` that runs when the debounce delay elapses without the
task having been cancelled.  Messages of a burst arriving "before the
previous timer fires" are therefore consecutive `schedule` calls with no
intervening `fireTimer`.  The `task` handle itself (an `asyncio.Task`)
has no observable content beyond cancellation, which is modelled by
`fireTimer` only ever acting on the entry currently in the map. -/

/-- `DebouncedMessage`: a pending debounced message (without the opaque
`task` handle; `last_update` is `time.time()` as an abstract tick). -/
structure DebouncedMessage where
  chat_id : Int
  trigger : TriggerConfig
  message_text : String
  captured_text : Option String
  message_id : Option Int
  last_update : Nat
  deriving DecidableEq

/-- Keys of the pending map: `(chat_id, trigger.pattern)`. -/
abbrev DebounceKey := Int × String

/-- The `DebounceManager`'s state: its `_pending` dict. -/
structure DebounceState where
  pending : List (DebounceKey × DebouncedMessage)
  deriving DecidableEq

/-- `DebounceManager._key`: unique key for a chat+trigger combination. -/
def DebounceManager.key (chat_id : Int) (trigger : TriggerConfig) : DebounceKey :=
  (chat_id, trigger.pattern)

/-- Arguments of one `schedule` call that vary per message. -/
structure ScheduleInput where
  text : String
  captured : Option String
  mid : Option Int
  now : Nat
  deriving DecidableEq

/-- The entry `schedule` creates for a fresh key (used to state the
debounce properties). -/
def entryFor (chat_id : Int) (trigger : TriggerConfig) (m : ScheduleInput) :
    DebouncedMessage :=
  { chat_id := chat_id
    trigger := trigger
    message_text := m.text
    captured_text := m.captured
    message_id := m.mid
    last_update := m.now }

/-- The field overwrite `schedule` performs on an existing entry (used to
state the debounce properties). -/
def updMsg (dm : DebouncedMessage) (m : ScheduleInput) : DebouncedMessage :=
  { dm with
    message_text := m.text
    captured_text := m.captured
    message_id := m.mid
    last_update := m.now }

/-- `DebounceManager.schedule`: if an entry exists for the key, cancel its
timer, overwrite the message fields (the `trigger` back-reference is left
as it was), restart the timer and return `False`; otherwise create a fresh
entry with a fresh timer and return `True`. -/
def DebounceManager.schedule (st : DebounceState) (chat_id : Int) (trigger : TriggerConfig)
    (m : ScheduleInput) : Bool × DebounceState :=
  let key := DebounceManager.key chat_id trigger
  match dictGet st.pending key with
  | some pending =>
    (false, ⟨dictSet st.pending key
      { pending with
        message_text := m.text
        captured_text := m.captured
        message_id := m.mid
        last_update := m.now }⟩)
  | none =>
    (true, ⟨dictSet st.pending key
      { chat_id := chat_id
        trigger := trigger
        message_text := m.text
        captured_text := m.captured
        message_id := m.mid
        last_update := m.now }⟩)

/-- The tail of `DebounceManager._wait_and_execute` once the delay has
elapsed and the task was not cancelled: if the key is still pending,
delete the entry and hand it to the callback (returned as `some entry`);
otherwise nothing fires. -/
def DebounceManager.fireTimer (st : DebounceState) (key : DebounceKey) :
    Option DebouncedMessage × DebounceState :=
  match dictGet st.pending key with
  | some pending => (some pending, ⟨dictRemove st.pending key⟩)
  | none => (none, st)

/-- `DebounceManager.cancel`: drop one pending entry, cancelling its
timer. -/
def DebounceManager.cancel (st : DebounceState) (chat_id : Int) (trigger : TriggerConfig) :
    Bool × DebounceState :=
  let key := DebounceManager.key chat_id trigger
  match dictGet st.pending key with
  | some _ => (true, ⟨dictRemove st.pending key⟩)
  | none => (false, st)

/-- `DebounceManager.cancel_all`: cancel every pending entry's timer and
clear the map, returning the number of cancelled timers (every pending
entry's task is live in this model). -/
def DebounceManager.cancel_all (st : DebounceState) : Nat × DebounceState :=
  (st.pending.length, ⟨[]⟩)

/-- Fold of `schedule` over a burst of messages for one key. -/
def DebounceManager.scheduleAll (st : DebounceState) (chat_id : Int) (trigger : TriggerConfig) :
    List ScheduleInput → List Bool × DebounceState
  | [] => ([], st)
  | m :: rest =>
    let r := DebounceManager.schedule st chat_id trigger m
    let r' := DebounceManager.scheduleAll r.2 chat_id trigger rest
    (r.1 :: r'.1, r'.2)

/-! ## `ClaudeBridge` (daemon/claude_bridge.py) -/

/-- `ClaudeConfig` (core/config.py). -/
structure ClaudeConfig where
  allowed_tools : List String := []
  max_turns : Int := 10
  timeout : Int := 300
  deriving DecidableEq

/-- `ClaudeConfig.build_cli_args`. -/
def ClaudeConfig.build_cli_args (c : ClaudeConfig) : List String :=
  (if !c.allowed_tools.isEmpty then ["--allowedTools", String.intercalate "," c.allowed_tools]
   else [])
  ++ ["--max-turns", toString c.max_turns]

/-- `ClaudeSession`: persistent Claude session for a chat.  Timestamps
(`datetime.now().isoformat()`) are abstract strings supplied as `now`. -/
structure ClaudeSession where
  chat_id : Int
  session_id : String
  message_count : Int := 0
  created_at : String
  last_used : String
  deriving DecidableEq

/-- `ClaudeSession.increment`: bump the count, refresh `last_used`. -/
def ClaudeSession.increment (s : ClaudeSession) (now : String) : ClaudeSession :=
  { s with message_count := s.message_count + 1, last_used := now }

/-- `ClaudeSession.to_dict`. -/
def ClaudeSession.to_dict (s : ClaudeSession) : Json :=
  .obj [("chat_id", .num s.chat_id),
        ("session_id", .str s.session_id),
        ("message_count", .num s.message_count),
        ("created_at", .str s.created_at),
        ("last_used", .str s.last_used)]

/-- `ClaudeSession.from_dict`: `data["chat_id"]` and `data["session_id"]`
raise `KeyError` when missing; subscripting a non-dict raises `TypeError`.
The remaining fields fall back to defaults (`now` for the timestamps). -/
def ClaudeSession.from_dict (j : Json) (now : String) : Except PyExn ClaudeSession :=
  match j with
  | .obj kvs =>
    match jsonGet kvs "chat_id", jsonGet kvs "session_id" with
    | none, _ => .error .keyError
    | _, none => .error .keyError
    | some cj, some sj =>
      .ok { chat_id := match cj with | .num n => n | _ => 0
            session_id := match sj with | .str s => s | _ => ""
            message_count := match jsonGet kvs "message_count" with
              | some (.num n) => n
              | _ => 0
            created_at := (jsonGetStr kvs "created_at").getD now
            last_used := (jsonGetStr kvs "last_used").getD now }
  | _ => .error .typeError

/-- `ClaudeResponse`: response from Claude Code.  `raw` holds the decoded
form of the raw output string handed to `parse` (or `none` when the
response was built without one). -/
structure ClaudeResponse where
  result : Option String := none
  session_id : Option String := none
  success : Bool := false
  error : Option String := none
  raw : Option (Option Json) := none

/-- Scan of the array wire shape: find the first `"result"`-typed event.
A non-dict element reached during the scan raises `AttributeError`
(`event.get` on a non-dict), as in the source. -/
def ClaudeResponse.findResultEvent (raw : Option Json) :
    List Json → Except PyExn ClaudeResponse
  | [] => .ok { success := false, error := some "No result in Claude response", raw := some raw }
  | event :: rest =>
    match event with
    | .obj kvs =>
      if (match jsonGet kvs "type" with | some (.str s) => s == "result" | _ => false : Bool) then
        let isErr := ((jsonGet kvs "is_error").getD (.bool false)).truthy
        .ok { result := jsonGetStr kvs "result"
              session_id := jsonGetStr kvs "session_id"
              success := !isErr
              error := if isErr then jsonGetStr kvs "result" else none
              raw := some raw }
      else ClaudeResponse.findResultEvent raw rest
    | _ => .error .attributeError

/-- `ClaudeResponse.parse`.  The argument is the decoded value of the raw
output string: `none` stands for a string `json.loads` rejects (the
`JSONDecodeError` branch, caught inside `parse`).  A decoded value that is
neither a list nor a dict raises: `"error" in data` on a string is a
substring test followed by `data["error"]` / `data.get` (`TypeError` /
`AttributeError`), and on any other value `in` itself raises
`TypeError`. -/
def ClaudeResponse.parse (raw : Option Json) : Except PyExn ClaudeResponse :=
  match raw with
  | none =>
    .ok { success := false, error := some "Failed to parse JSON response", raw := some raw }
  | some j =>
    match j with
    | .arr events => ClaudeResponse.findResultEvent raw events
    | .obj kvs =>
      if jsonHasKey kvs "error" then
        .ok { success := false, error := jsonGetStr kvs "error", raw := some raw }
      else
        .ok { result := jsonGetStr kvs "result"
              session_id := jsonGetStr kvs "session_id"
              success := true
              raw := some raw }
    | .str s => if listHasSub "error".data s.data then .error .typeError
                else .error .attributeError
    | _ => .error .typeError

/-- State owned by a `ClaudeBridge` instance, together with the sessions
file it persists to.  `file = none` means the file does not exist;
`file = some none` a file whose contents `json.loads` rejects;
`file = some (some j)` a file decoding to `j`.  `has_sessions_file`
models `sessions_file is not None`. -/
structure BridgeState where
  config : ClaudeConfig
  max_concurrent : Nat := 1
  max_queue_size : Nat := 10
  sessions : List (Int × ClaudeSession) := []
  queue_size : Nat := 0
  has_sessions_file : Bool := true
  file : Option (Option Json) := none

/-- Serialization of the session table as written by `save_sessions`:
`{str(chat_id): session.to_dict()}`. -/
def encodeSessions (sessions : List (Int × ClaudeSession)) : Json :=
  .obj (sessions.map fun p => (toString p.1, p.2.to_dict))

/-- `ClaudeBridge.save_sessions`: rewrite the whole sessions file; a
no-op when no sessions file is configured. -/
def ClaudeBridge.save_sessions (st : BridgeState) : BridgeState :=
  if st.has_sessions_file then { st with file := some (some (encodeSessions st.sessions)) }
  else st

/-- The loop body of `load_sessions`: mutate the table entry by entry,
stopping at the first exception (returned alongside the partial table). -/
def ClaudeBridge.loadLoop (now : String) :
    List (String × Json) → List (Int × ClaudeSession) →
    List (Int × ClaudeSession) × Option PyExn
  | [], table => (table, none)
  | (key, sdata) :: rest, table =>
    match pyParseInt key with
    | none => (table, some .valueError)
    | some chat_id =>
      match ClaudeSession.from_dict sdata now with
      | .error e => (table, some e)
      | .ok s => ClaudeBridge.loadLoop now rest (dictSet table chat_id s)

/-- `ClaudeBridge.load_sessions`: read and decode the sessions file into
the in-memory table.  Only `json.JSONDecodeError` and `KeyError` are
caught (and logged); any other exception escapes, shown as `some exn` in
the result.  A missing or unconfigured file is a silent no-op. -/
def ClaudeBridge.load_sessions (st : BridgeState) (now : String) :
    BridgeState × Option PyExn :=
  if !st.has_sessions_file then (st, none)
  else
    match st.file with
    | none => (st, none)
    | some none => (st, none)  -- JSONDecodeError: caught, logged
    | some (some j) =>
      match j with
      | .obj kvs =>
        match ClaudeBridge.loadLoop now kvs st.sessions with
        | (table, none) => ({ st with sessions := table }, none)
        | (table, some .keyError) => ({ st with sessions := table }, none)  -- caught, logged
        | (table, some e) => ({ st with sessions := table }, some e)
      | _ => (st, some .attributeError)  -- data.items() on a non-dict

/-- `ClaudeBridge.clear_session`. -/
def ClaudeBridge.clear_session (st : BridgeState) (chat_id : Int) : BridgeState :=
  { st with sessions := dictRemove st.sessions chat_id }

/-- Outcome of one invocation of the external `claude` process (the
oracle for a single `_execute` call): the spawn can fail with `OSError`,
the process can overrun the timeout, or it exits with a code, a decoded
stdout (`none` for output `json.loads` rejects) and stderr. -/
inductive ExecOutcome where
  | oserror (msg : String)
  | timeout
  | exited (code : Int) (stdout : Option Json) (stderr : String)

/-- The command built by `ClaudeBridge._execute` (lines 218-230): base
invocation, then the optional system prompt, then — only when a session
exists and the system prompt is falsy — the resume flag, then the
config args. -/
def ClaudeBridge.buildCmd (st : BridgeState) (prompt : String) (chat_id : Int)
    (system_prompt : Option String) : List String :=
  let cmd := ["claude", "-p", prompt, "--output-format", "json"]
  let cmd := if pyTruthyStr system_prompt then
      cmd ++ ["--system-prompt", system_prompt.getD ""]
    else cmd
  let cmd := match dictGet st.sessions chat_id with
    | some session =>
      if !pyTruthyStr system_prompt then cmd ++ ["--resume", session.session_id] else cmd
    | none => cmd
  cmd ++ st.config.build_cli_args

/-- The resume portion of the command, named so the resume policy can be
stated: `["--resume", token]` exactly when a session exists for the chat
and the system prompt is falsy. -/
def ClaudeBridge.resumeArgs (sessions : List (Int × ClaudeSession)) (chat_id : Int)
    (system_prompt : Option String) : List String :=
  match dictGet sessions chat_id with
  | some session =>
    if !pyTruthyStr system_prompt then ["--resume", session.session_id] else []
  | none => []

/-- `ClaudeBridge._execute`: build the command, run the subprocess
(outcome supplied by the oracle), parse, and on a successful response
carrying a truthy `session_id` update the session table and write it
through to disk.  Exceptions escaping `parse` are absorbed by the
`except Exception` clause.  Returns the issued command, the response and
the new state; `now` stands for `datetime.now().isoformat()`. -/
def ClaudeBridge._execute (st : BridgeState) (prompt : String) (chat_id : Int)
    (system_prompt : Option String) (outcome : ExecOutcome) (now : String) :
    List String × ClaudeResponse × BridgeState :=
  let cmd := ClaudeBridge.buildCmd st prompt chat_id system_prompt
  match outcome with
  | .oserror msg =>
    (cmd, { success := false, error := some ("Failed to execute Claude CLI: " ++ msg) }, st)
  | .timeout =>
    (cmd, { success := false,
            error := some ("Timeout after " ++ toString st.config.timeout ++ "s") }, st)
  | .exited code stdout stderr =>
    if code ≠ 0 then
      (cmd, { success := false,
              error := some ("Claude exited with code " ++ toString code ++ ": " ++ stderr) },
       st)
    else
      match ClaudeResponse.parse stdout with
      | .error _ =>
        (cmd, { success := false, error := some "Unexpected error" }, st)
      | .ok response =>
        if response.success && pyTruthyStr response.session_id then
          let sid := response.session_id.getD ""
          let sessions :=
            match dictGet st.sessions chat_id with
            | some old =>
              dictSet st.sessions chat_id (({ old with session_id := sid }).increment now)
            | none =>
              dictSet st.sessions chat_id
                { chat_id := chat_id, session_id := sid, message_count := 0,
                  created_at := now, last_used := now }
          (cmd, response, ClaudeBridge.save_sessions { st with sessions := sessions })
        else (cmd, response, st)

/-- The queue-full failure returned by `send` without admitting the
call. -/
def queueFullResponse : ClaudeResponse :=
  { success := false,
    error := some "Queue is full - too many pending requests. Please try again later." }

/-- `ClaudeBridge.send`: reject immediately when the admission counter has
reached the configured maximum; otherwise admit (counter up), execute
under the semaphore, and release (counter down).  The final component
records whether the external process was invoked. -/
def ClaudeBridge.send (st : BridgeState) (prompt : String) (chat_id : Int)
    (system_prompt : Option String) (outcome : ExecOutcome) (now : String) :
    ClaudeResponse × BridgeState × Bool :=
  if st.queue_size ≥ st.max_queue_size then
    (queueFullResponse, st, false)
  else
    let st₁ := { st with queue_size := st.queue_size + 1 }
    let r := ClaudeBridge._execute st₁ prompt chat_id system_prompt outcome now
    (r.2.1, { r.2.2 with queue_size := r.2.2.queue_size - 1 }, true)

/-! ## `Daemon` runner (daemon/runner.py) -/

/-- `ActionResult` (daemon/handlers.py). -/
structure ActionResult where
  success : Bool
  response : Option String := none
  error : Option String := none
  should_reply : Bool := false
  reply_to_message_id : Option Int := none
  deriving DecidableEq

/-- An outgoing `send_message` call: target chat, text, optional
reply-to id. -/
structure OutgoingMessage where
  chat_id : Int
  text : String
  reply_to : Option Int
  deriving DecidableEq

/-- The reply decision at the end of `Daemon._execute_action` (runner.py
lines 186-197): reply only for a truthy response with `should_reply`,
suppressing the `SKIP` sentinel; `none` means no message is sent. -/
def Daemon.sendDecision (chat_id : Int) (result : ActionResult) : Option OutgoingMessage :=
  if result.should_reply && pyTruthyStr result.response then
    if pyUpper (pyStrip (result.response.getD "")) = "SKIP" then none
    else some { chat_id := chat_id, text := result.response.getD "",
                reply_to := result.reply_to_message_id }
  else none

/-- The daemon's mutable state, as far as `stop` observes it. -/
structure DaemonState where
  running : Bool := true
  client : Bool := true       -- a Telegram client is connected
  bridge : Option BridgeState := none
  debounce : DebounceState := ⟨[]⟩

/-- One externally visible step of `Daemon.stop`. -/
inductive StopOp where
  | cancelTimers (count : Nat)
  | disconnect
  | saveSessions
  deriving DecidableEq

/-- `Daemon.stop`: cancel pending debounced messages, disconnect the
client if present, then save sessions if a bridge exists — in the order
the source performs them.  Returns the trace of steps and the final
state. -/
def Daemon.stop (st : DaemonState) : List StopOp × DaemonState :=
  let r := DebounceManager.cancel_all st.debounce
  let ops := [StopOp.cancelTimers r.1]
  let ops := if st.client then ops ++ [StopOp.disconnect] else ops
  let bridge := st.bridge.map ClaudeBridge.save_sessions
  let ops := match st.bridge with
    | some _ => ops ++ [StopOp.saveSessions]
    | none => ops
  (ops, { st with running := false, debounce := r.2, bridge := bridge })

/-! ## Concrete instances used by witnesses and counterexamples -/

/-- Literal regex for a string of characters. -/
def Regex.lit : List Char → Regex
  | [] => .eps
  | c :: cs => .concat (.char c) (Regex.lit cs)

/-- A trigger with the wildcard chat selector and a group-free pattern. -/
def trigHi : TriggerConfig :=
  { chat := "*", pattern := "hi", action := "reply", reply_text := some "hello",
    compiled := Regex.lit ['h', 'i'] }

/-- A trigger with the same pattern as `trigHi` but a different action. -/
def trigHiIgnore : TriggerConfig :=
  { chat := "*", pattern := "hi", action := "ignore",
    compiled := Regex.lit ['h', 'i'] }

/-- A trigger with a named chat, a capturing group and a debounce window
(the spec's `"^/ask (.+)$"` scenario, without the redundant anchor). -/
def trigAsk : TriggerConfig :=
  { chat := "@alice", pattern := "/ask (.+)", action := "claude", debounce_seconds := 5,
    compiled := .concat (Regex.lit ['/', 'a', 's', 'k', ' '])
      (.group 1 (.concat .anyChar (.star .anyChar))) }

/-- A stored session for chat 1. -/
def sess1 : ClaudeSession :=
  { chat_id := 1, session_id := "tok-1", message_count := 2,
    created_at := "2026-01-01T00:00:00", last_used := "2026-01-02T00:00:00" }

/-- Schedule inputs for debounce scenarios. -/
def msgA : ScheduleInput := { text := "/ask a", captured := some "a", mid := some 10, now := 100 }

def msgB : ScheduleInput := { text := "/ask ab", captured := some "ab", mid := some 11, now := 102 }

def msgC : ScheduleInput := { text := "/ask abc", captured := some "abc", mid := some 12, now := 103 }

/-- A bridge with default limits, no stored sessions, a configured but
not-yet-written sessions file. -/
def sampleBridge : BridgeState := { config := {} }

/-- A pending debounced message for `trigHi` in chat 1. -/
def pendingHi : DebouncedMessage :=
  { chat_id := 1, trigger := trigHi, message_text := "hi", captured_text := none,
    message_id := some 5, last_update := 100 }

/-- A running daemon with a connected client, a bridge holding one
session, and one pending debounced message. -/
def sampleDaemon : DaemonState :=
  { client := true,
    bridge := some { sampleBridge with sessions := [(1, sess1)] },
    debounce := ⟨[(DebounceManager.key 1 trigHi, pendingHi)]⟩ }

/-! # Theorems -/

/-! ## Engine lemmas -/

/-- Every backtracking run preserves the length of the group state. -/
theorem Regex.runs_groups_length :
    ∀ (fuel : Nat) (r : Regex) (s : List Char) (g : GroupState) (p : List Char × GroupState),
      p ∈ Regex.runs fuel r s g → p.2.length = g.length := by
  intro fuel
  induction fuel with
  | zero => intro r s g p hp; simp [Regex.runs] at hp
  | succ fuel ih =>
    intro r s g p hp
    cases r with
    | eps =>
      simp only [Regex.runs, List.mem_singleton] at hp
      subst hp; rfl
    | eos =>
      cases s with
      | nil =>
        simp only [Regex.runs, List.mem_singleton] at hp
        subst hp; rfl
      | cons x xs => simp [Regex.runs] at hp
    | char c =>
      cases s with
      | nil => simp [Regex.runs] at hp
      | cons x xs =>
        by_cases hx : x = c
        · simp only [Regex.runs, if_pos hx, List.mem_singleton] at hp
          subst hp; rfl
        · simp [Regex.runs, hx] at hp
    | anyChar =>
      cases s with
      | nil => simp [Regex.runs] at hp
      | cons x xs =>
        by_cases hx : x = '\n'
        · simp [Regex.runs, hx] at hp
        · simp only [Regex.runs, if_neg hx, List.mem_singleton] at hp
          subst hp; rfl
    | concat r₁ r₂ =>
      simp only [Regex.runs, List.mem_flatMap] at hp
      obtain ⟨q, hq, hp₂⟩ := hp
      rw [ih r₂ q.1 q.2 p hp₂, ih r₁ s g q hq]
    | alt r₁ r₂ =>
      simp only [Regex.runs, List.mem_append] at hp
      rcases hp with h | h
      · exact ih r₁ s g p h
      · exact ih r₂ s g p h
    | star r₁ =>
      simp only [Regex.runs, List.mem_append, List.mem_singleton, List.mem_flatMap] at hp
      rcases hp with ⟨q, hq, hp₂⟩ | h
      · have hq' : q ∈ Regex.runs fuel r₁ s g := (List.mem_filter.mp hq).1
        rw [ih (.star r₁) q.1 q.2 p hp₂, ih r₁ s g q hq']
      · subst h; rfl
    | group idx r₁ =>
      simp only [Regex.runs, List.mem_map] at hp
      obtain ⟨q, hq, hpq⟩ := hp
      subst hpq
      simp only [List.length_set]
      exact ih r₁ s g q hq

/-- Soundness of the engine with respect to the declarative semantics:
every run matches a prefix of the input (the engine is anchored at the
start of the string). -/
theorem Regex.runs_sound :
    ∀ (fuel : Nat) (r : Regex) (s : List Char) (g : GroupState) (p : List Char × GroupState),
      p ∈ Regex.runs fuel r s g → ∃ pre, s = pre ++ p.1 ∧ RMatches r pre := by
  intro fuel
  induction fuel with
  | zero => intro r s g p hp; simp [Regex.runs] at hp
  | succ fuel ih =>
    intro r s g p hp
    cases r with
    | eps =>
      simp only [Regex.runs, List.mem_singleton] at hp
      subst hp
      exact ⟨[], rfl, RMatches.eps⟩
    | eos =>
      cases s with
      | nil =>
        simp only [Regex.runs, List.mem_singleton] at hp
        subst hp
        exact ⟨[], rfl, RMatches.eos⟩
      | cons x xs => simp [Regex.runs] at hp
    | char c =>
      cases s with
      | nil => simp [Regex.runs] at hp
      | cons x xs =>
        by_cases hx : x = c
        · simp only [Regex.runs, if_pos hx, List.mem_singleton] at hp
          subst hp
          exact ⟨[c], by rw [hx]; rfl, RMatches.char c⟩
        · simp [Regex.runs, hx] at hp
    | anyChar =>
      cases s with
      | nil => simp [Regex.runs] at hp
      | cons x xs =>
        by_cases hx : x = '\n'
        · simp [Regex.runs, hx] at hp
        · simp only [Regex.runs, if_neg hx, List.mem_singleton] at hp
          subst hp
          exact ⟨[x], rfl, RMatches.anyChar x hx⟩
    | concat r₁ r₂ =>
      simp only [Regex.runs, List.mem_flatMap] at hp
      obtain ⟨q, hq, hp₂⟩ := hp
      obtain ⟨pre₁, hs₁, hm₁⟩ := ih r₁ s g q hq
      obtain ⟨pre₂, hs₂, hm₂⟩ := ih r₂ q.1 q.2 p hp₂
      exact ⟨pre₁ ++ pre₂, by rw [hs₁, hs₂, List.append_assoc], RMatches.concat hm₁ hm₂⟩
    | alt r₁ r₂ =>
      simp only [Regex.runs, List.mem_append] at hp
      rcases hp with h | h
      · obtain ⟨pre, hs, hm⟩ := ih r₁ s g p h
        exact ⟨pre, hs, RMatches.altL hm⟩
      · obtain ⟨pre, hs, hm⟩ := ih r₂ s g p h
        exact ⟨pre, hs, RMatches.altR hm⟩
    | star r₁ =>
      simp only [Regex.runs, List.mem_append, List.mem_singleton, List.mem_flatMap] at hp
      rcases hp with ⟨q, hq, hp₂⟩ | h
      · have hq' : q ∈ Regex.runs fuel r₁ s g := (List.mem_filter.mp hq).1
        obtain ⟨pre₁, hs₁, hm₁⟩ := ih r₁ s g q hq'
        obtain ⟨pre₂, hs₂, hm₂⟩ := ih (.star r₁) q.1 q.2 p hp₂
        exact ⟨pre₁ ++ pre₂, by rw [hs₁, hs₂, List.append_assoc], RMatches.starCons hm₁ hm₂⟩
      · subst h
        exact ⟨[], rfl, RMatches.starNil⟩
    | group idx r₁ =>
      simp only [Regex.runs, List.mem_map] at hp
      obtain ⟨q, hq, hpq⟩ := hp
      obtain ⟨pre, hs, hm⟩ := ih r₁ s g q hq
      subst hpq
      exact ⟨pre, hs, RMatches.group hm⟩

/-- `match.groups()` has one slot per capturing group of the pattern. -/
theorem match_message_groups_length (t : TriggerConfig) (text : String) (m : ReMatch)
    (h : t.match_message text = some m) : m.groups.length = t.compiled.numGroups := by
  simp only [TriggerConfig.match_message] at h
  cases hr : Regex.runs ((t.compiled.size + 2) * (text.data.length + 2)) t.compiled text.data
      (List.replicate t.compiled.numGroups none) with
  | nil => rw [hr] at h; simp at h
  | cons hd tail =>
    obtain ⟨rest, g⟩ := hd
    rw [hr] at h
    simp only [Option.some.injEq] at h
    subst h
    have hmem : ((rest, g) : List Char × GroupState)
        ∈ Regex.runs ((t.compiled.size + 2) * (text.data.length + 2)) t.compiled text.data
          (List.replicate t.compiled.numGroups none) := by
      rw [hr]; exact List.mem_cons_self _ _
    have := Regex.runs_groups_length _ _ _ _ _ hmem
    simpa using this

/-- A successful `match_message` exhibits an anchored match: a prefix of
the text, starting at position 0, in the declarative semantics. -/
theorem match_message_anchored (t : TriggerConfig) (text : String) (m : ReMatch)
    (h : t.match_message text = some m) :
    ∃ pre rest, text.data = pre ++ rest ∧ RMatches t.compiled pre := by
  simp only [TriggerConfig.match_message] at h
  cases hr : Regex.runs ((t.compiled.size + 2) * (text.data.length + 2)) t.compiled text.data
      (List.replicate t.compiled.numGroups none) with
  | nil => rw [hr] at h; simp at h
  | cons hd tail =>
    have hmem : hd ∈ Regex.runs ((t.compiled.size + 2) * (text.data.length + 2)) t.compiled
        text.data (List.replicate t.compiled.numGroups none) := by
      rw [hr]; exact List.mem_cons_self _ _
    obtain ⟨pre, hs, hm⟩ := Regex.runs_sound _ _ _ _ _ hmem
    exact ⟨pre, hd.1, hs, hm⟩

/-- The code's chat selector check agrees with the spec's wording. -/
theorem matches_chat_eq_spec (t : TriggerConfig) (chat_name : String) :
    t.matches_chat chat_name = specMatchesChat t chat_name := by
  unfold TriggerConfig.matches_chat specMatchesChat
  by_cases h : t.chat = "*" <;> simp [h]

/-- C1: `EventRouter.match` returns the first rule in declaration order
whose chat selector matches (wildcard matches any chat; otherwise
case-insensitive exact equality) and whose regex matches the message text
anchored at the start of the string, with group 1 as `captured_text` when
the regex has a capturing group and `none` otherwise; if no rule satisfies
both, it returns `none`.  Stated as equality with `specRouterMatch`, the
first-match-wins contract transcribed from the spec, plus anchoring: any
rule whose pattern matches does so on a prefix of the text. -/
theorem c1_router_first_match (ts : List TriggerConfig) (chat_name message_text : String) :
    EventRouter.match ts chat_name message_text = specRouterMatch ts chat_name message_text ∧
    ∀ t m, t ∈ ts → TriggerConfig.match_message t message_text = some m →
      ∃ pre rest, message_text.data = pre ++ rest ∧ RMatches t.compiled pre := by
  constructor
  · induction ts with
    | nil => rfl
    | cons t rest ih =>
      by_cases hc : t.matches_chat chat_name
      · have hspec : specMatchesChat t chat_name = true := by
          rw [← matches_chat_eq_spec]; exact hc
        cases hm : t.match_message message_text with
        | some m =>
          have hlen := match_message_groups_length t message_text m hm
          have hcap : (if m.groups.isEmpty then none else m.group1)
              = (if 0 < t.compiled.numGroups then m.group1 else none) := by
            rcases Nat.eq_zero_or_pos t.compiled.numGroups with h0 | h0
            · have hnil : m.groups = [] := by
                apply List.eq_nil_of_length_eq_zero
                rw [hlen, h0]
              simp [hnil, h0, ReMatch.group1]
            · have hne : ¬ m.groups.isEmpty = true := by
                rw [List.isEmpty_iff]
                intro hnil
                rw [hnil] at hlen
                simp at hlen
                omega
              simp [hne, h0]
          simp only [EventRouter.match, if_pos hc, hm, hcap, specRouterMatch,
            List.find?, hspec, Option.isSome_some, Bool.and_self]
          simp [hm]
        | none =>
          simp only [EventRouter.match, if_pos hc, hm, specRouterMatch, List.find?, hspec,
            Option.isSome_none, Bool.and_false]
          exact ih
      · have hspec : specMatchesChat t chat_name = false := by
          rw [← matches_chat_eq_spec]
          simpa using hc
        simp only [EventRouter.match, if_neg hc, specRouterMatch, List.find?, hspec,
          Bool.false_and]
        exact ih
  · intro t m _ hm
    exact match_message_anchored t message_text m hm

/-- Witness for C1: a two-rule list where the first rule's chat does not
match, the second matches with a capturing group; the router agrees with
the spec-side contract, and the match is anchored. -/
theorem c1_router_first_match_witness :
    EventRouter.match [trigHi, trigAsk] "@Alice" "/ask hello"
        = specRouterMatch [trigHi, trigAsk] "@Alice" "/ask hello" ∧
    ∃ pre rest, "/ask hello".data = pre ++ rest ∧ RMatches trigAsk.compiled pre :=
  ⟨(c1_router_first_match [trigHi, trigAsk] "@Alice" "/ask hello").1,
   (c1_router_first_match [trigHi, trigAsk] "@Alice" "/ask hello").2 trigAsk
     ⟨[some "hello"]⟩ (by decide) (by decide)⟩

/-- C2: when the admission counter (`queue_size`, in-flight plus queued
send calls) is at or above the configured maximum, `send` returns the
queue-full failure immediately, leaving the state untouched and without
invoking the external process; below the threshold the call is
admitted (the process is invoked). -/
theorem c2_queue_full (st : BridgeState) (prompt : String) (chat_id : Int)
    (system_prompt : Option String) (outcome : ExecOutcome) (now : String) :
    (st.queue_size ≥ st.max_queue_size →
      ClaudeBridge.send st prompt chat_id system_prompt outcome now
          = (queueFullResponse, st, false) ∧
      queueFullResponse.success = false ∧
      queueFullResponse.error
          = some "Queue is full - too many pending requests. Please try again later.") ∧
    (st.queue_size < st.max_queue_size →
      (ClaudeBridge.send st prompt chat_id system_prompt outcome now).2.2 = true) := by
  constructor
  · intro h
    refine ⟨?_, rfl, rfl⟩
    simp [ClaudeBridge.send, h]
  · intro h
    have h' : ¬ st.queue_size ≥ st.max_queue_size := Nat.not_le.mpr h
    simp [ClaudeBridge.send, h']

/-- Witness for C2: with the counter at the maximum the call is rejected
without invoking the process; with a free slot it is admitted. -/
theorem c2_queue_full_witness :
    ClaudeBridge.send { sampleBridge with queue_size := 10 } "p" 1 none .timeout "T"
        = (queueFullResponse, { sampleBridge with queue_size := 10 }, false) ∧
    (ClaudeBridge.send sampleBridge "p" 1 none .timeout "T").2.2 = true :=
  ⟨((c2_queue_full { sampleBridge with queue_size := 10 } "p" 1 none .timeout "T").1
      (by decide)).1,
   (c2_queue_full sampleBridge "p" 1 none .timeout "T").2 (by decide)⟩

/-- C6: an `ActionResult` whose response text, stripped and upper-cased,
equals the sentinel `"SKIP"` produces no outgoing message; a successful
result with `should_reply` and a non-sentinel, non-empty response text
produces exactly one message to the originating chat carrying the
result's reply-target. -/
theorem c6_skip_sentinel :
    (∀ (chat_id : Int) (r : ActionResult) (s : String), r.response = some s →
        pyUpper (pyStrip s) = "SKIP" → Daemon.sendDecision chat_id r = none) ∧
    (∀ (chat_id : Int) (r : ActionResult) (s : String),
        r.success = true → r.should_reply = true → r.response = some s → s ≠ "" →
        pyUpper (pyStrip s) ≠ "SKIP" →
        Daemon.sendDecision chat_id r
          = some { chat_id := chat_id, text := s, reply_to := r.reply_to_message_id }) := by
  constructor
  · intro chat_id r s hresp hskip
    unfold Daemon.sendDecision
    rw [hresp]
    by_cases hsr : r.should_reply
    · by_cases hne : s = ""
      · subst hne
        simp [pyTruthyStr]
      · simp [hsr, pyTruthyStr, hne, hskip]
    · simp [hsr]
  · intro chat_id r s hsucc hsr hresp hne hskip
    unfold Daemon.sendDecision
    rw [hresp]
    simp [hsr, pyTruthyStr, hne, hskip]

/-- Witness for C6: a padded lower-case `" skip "` is suppressed; a
normal reply is sent once with the inline reply target. -/
theorem c6_skip_sentinel_witness :
    Daemon.sendDecision 5
        { success := true, response := some " skip ", should_reply := true,
          reply_to_message_id := some 7 } = none ∧
    Daemon.sendDecision 5
        { success := true, response := some "pong", should_reply := true,
          reply_to_message_id := some 7 }
      = some { chat_id := 5, text := "pong", reply_to := some 7 } :=
  ⟨c6_skip_sentinel.1 5
      { success := true, response := some " skip ", should_reply := true,
        reply_to_message_id := some 7 } " skip " rfl (by decide),
   c6_skip_sentinel.2 5
      { success := true, response := some "pong", should_reply := true,
        reply_to_message_id := some 7 } "pong" rfl rfl rfl (by decide) (by decide)⟩

/-! ## Debounce lemmas -/

theorem updMsg_updMsg (dm : DebouncedMessage) (m m' : ScheduleInput) :
    updMsg (updMsg dm m) m' = updMsg dm m' := rfl

theorem updMsg_entryFor (chat_id : Int) (trigger : TriggerConfig) (m m' : ScheduleInput) :
    updMsg (entryFor chat_id trigger m) m' = entryFor chat_id trigger m' := rfl

theorem schedule_present (st : DebounceState) (chat_id : Int) (trigger : TriggerConfig)
    (m : ScheduleInput) (e : DebouncedMessage)
    (h : dictGet st.pending (DebounceManager.key chat_id trigger) = some e) :
    DebounceManager.schedule st chat_id trigger m
      = (false, ⟨dictSet st.pending (DebounceManager.key chat_id trigger) (updMsg e m)⟩) := by
  simp [DebounceManager.schedule, h, updMsg]

theorem schedule_absent (st : DebounceState) (chat_id : Int) (trigger : TriggerConfig)
    (m : ScheduleInput)
    (h : dictGet st.pending (DebounceManager.key chat_id trigger) = none) :
    DebounceManager.schedule st chat_id trigger m
      = (true, ⟨dictSet st.pending (DebounceManager.key chat_id trigger)
          (entryFor chat_id trigger m)⟩) := by
  simp [DebounceManager.schedule, h, entryFor]

/-- Scheduling a run of messages while an entry exists for the key keeps
returning `false` and leaves the entry overwritten with the last
message. -/
theorem scheduleAll_present (chat_id : Int) (trigger : TriggerConfig) :
    ∀ (msgs : List ScheduleInput) (st : DebounceState) (e : DebouncedMessage)
      (hne : msgs ≠ [])
      (he : dictGet st.pending (DebounceManager.key chat_id trigger) = some e),
      DebounceManager.scheduleAll st chat_id trigger msgs
        = (List.replicate msgs.length false,
           ⟨dictSet st.pending (DebounceManager.key chat_id trigger)
              (updMsg e (msgs.getLast hne))⟩) := by
  intro msgs
  induction msgs with
  | nil => intro st e hne he; exact absurd rfl hne
  | cons m rest ih =>
    intro st e hne he
    have step : DebounceManager.schedule st chat_id trigger m
        = (false, ⟨dictSet st.pending (DebounceManager.key chat_id trigger) (updMsg e m)⟩) := by
      simp [DebounceManager.schedule, he, updMsg]
    cases rest with
    | nil =>
      simp [DebounceManager.scheduleAll, step, List.getLast]
    | cons m₂ rest₂ =>
      have ih' := ih ⟨dictSet st.pending (DebounceManager.key chat_id trigger) (updMsg e m)⟩
        (updMsg e m) (by simp) (by simpa using dictGet_set_self st.pending _ (updMsg e m))
      rw [DebounceManager.scheduleAll]
      simp only [step]
      rw [ih', List.getLast_cons (l := m₂ :: rest₂) (by simp)]
      simp [dictSet_set_self, updMsg_updMsg, List.replicate_succ]

/-- Scheduling a nonempty burst for a fresh key returns `true` then
`false`s and leaves a single entry carrying the last message. -/
theorem scheduleAll_fresh (chat_id : Int) (trigger : TriggerConfig) (st₀ : DebounceState)
    (msgs : List ScheduleInput) (hne : msgs ≠ [])
    (habsent : dictGet st₀.pending (DebounceManager.key chat_id trigger) = none) :
    DebounceManager.scheduleAll st₀ chat_id trigger msgs
      = (true :: List.replicate (msgs.length - 1) false,
         ⟨dictSet st₀.pending (DebounceManager.key chat_id trigger)
            (entryFor chat_id trigger (msgs.getLast hne))⟩) := by
  cases msgs with
  | nil => exact absurd rfl hne
  | cons m rest =>
    have step : DebounceManager.schedule st₀ chat_id trigger m
        = (true, ⟨dictSet st₀.pending (DebounceManager.key chat_id trigger)
            (entryFor chat_id trigger m)⟩) := by
      simp [DebounceManager.schedule, habsent, entryFor]
    cases rest with
    | nil =>
      simp [DebounceManager.scheduleAll, step, List.getLast]
    | cons m₂ rest₂ =>
      have hp := scheduleAll_present chat_id trigger (m₂ :: rest₂)
        ⟨dictSet st₀.pending (DebounceManager.key chat_id trigger) (entryFor chat_id trigger m)⟩
        (entryFor chat_id trigger m) (by simp)
        (by simpa using dictGet_set_self st₀.pending _ (entryFor chat_id trigger m))
      rw [DebounceManager.scheduleAll]
      simp only [step]
      rw [hp, List.getLast_cons (l := m₂ :: rest₂) (by simp)]
      simp [dictSet_set_self, updMsg_entryFor, List.replicate_succ]

/-- C3: scheduling N ≥ 1 messages for the same (chat, rule) key before the
timer fires yields `true` for the first call and `false` for each later
one; when the timer then fires, exactly one action fires, carrying the
last message's content (text, captured text, message id); after the
firing the entry is gone and the timer cannot fire again; a later
schedule call starts a second, independent firing with its own
content. -/
theorem c3_debounce_coalescing (chat_id : Int) (trigger : TriggerConfig) (st₀ : DebounceState)
    (msgs : List ScheduleInput) (hne : msgs ≠ [])
    (habsent : dictGet st₀.pending (DebounceManager.key chat_id trigger) = none) :
    (DebounceManager.scheduleAll st₀ chat_id trigger msgs).1
        = true :: List.replicate (msgs.length - 1) false ∧
    DebounceManager.fireTimer (DebounceManager.scheduleAll st₀ chat_id trigger msgs).2
        (DebounceManager.key chat_id trigger)
      = (some (entryFor chat_id trigger (msgs.getLast hne)), st₀) ∧
    DebounceManager.fireTimer st₀ (DebounceManager.key chat_id trigger) = (none, st₀) ∧
    ∀ m' : ScheduleInput,
      DebounceManager.schedule st₀ chat_id trigger m'
          = (true, ⟨dictSet st₀.pending (DebounceManager.key chat_id trigger)
              (entryFor chat_id trigger m')⟩) ∧
      DebounceManager.fireTimer
          ⟨dictSet st₀.pending (DebounceManager.key chat_id trigger)
            (entryFor chat_id trigger m')⟩
          (DebounceManager.key chat_id trigger)
        = (some (entryFor chat_id trigger m'), st₀) := by
  refine ⟨?_, ?_, ?_, ?_⟩
  · rw [scheduleAll_fresh chat_id trigger st₀ msgs hne habsent]
  · rw [scheduleAll_fresh chat_id trigger st₀ msgs hne habsent]
    simp [DebounceManager.fireTimer, dictGet_set_self,
      dictRemove_set_of_absent _ _ _ habsent]
  · simp [DebounceManager.fireTimer, habsent]
  · intro m'
    constructor
    · simp [DebounceManager.schedule, habsent, entryFor]
    · simp [DebounceManager.fireTimer, dictGet_set_self,
        dictRemove_set_of_absent _ _ _ habsent]

/-- Witness for C3: the spec's three-message `/ask` burst fires once with
the third message's content, and a fourth message after the firing starts
a fresh burst. -/
theorem c3_debounce_coalescing_witness :
    (DebounceManager.scheduleAll ⟨[]⟩ 1 trigAsk [msgA, msgB, msgC]).1
        = [true, false, false] ∧
    DebounceManager.fireTimer (DebounceManager.scheduleAll ⟨[]⟩ 1 trigAsk [msgA, msgB, msgC]).2
        (DebounceManager.key 1 trigAsk)
      = (some (entryFor 1 trigAsk msgC), ⟨[]⟩) ∧
    DebounceManager.schedule ⟨[]⟩ 1 trigAsk msgA
        = (true, ⟨[(DebounceManager.key 1 trigAsk, entryFor 1 trigAsk msgA)]⟩) :=
  ⟨(c3_debounce_coalescing 1 trigAsk ⟨[]⟩ [msgA, msgB, msgC] (by decide) rfl).1,
   (c3_debounce_coalescing 1 trigAsk ⟨[]⟩ [msgA, msgB, msgC] (by decide) rfl).2.1,
   ((c3_debounce_coalescing 1 trigAsk ⟨[]⟩ [msgA, msgB, msgC] (by decide) rfl).2.2.2 msgA).1⟩

/-- C4 counterexample: with a stored session for chat 1 and
`system_prompt = some ""` — a supplied but empty system instruction —
the command does include the resume flag, so "resume if and only if no
system instruction is supplied and a session exists" is false as stated:
Python's `if session and not system_prompt` treats the empty string as
no instruction. -/
theorem c4_resume_counterexample :
    ¬ (("--resume" ∈ ClaudeBridge.resumeArgs [(1, sess1)] 1 (some "")) ↔
       ((some "" : Option String) = none ∧ (dictGet [(1, sess1)] 1).isSome = true)) := by
  decide

/-- C4 (amended): the command `_execute` builds decomposes into the base
invocation, the system-prompt flag, the resume portion and the config
args; the resume portion `["--resume", stored_token]` is present if and
only if the supplied system instruction is falsy (absent or empty) and a
prior session exists for the chat; any non-empty system instruction
suppresses the resume flag even when a session exists. -/
theorem c4_resume_policy (st : BridgeState) (prompt : String) (chat_id : Int)
    (system_prompt : Option String) :
    ClaudeBridge.buildCmd st prompt chat_id system_prompt
      = ["claude", "-p", prompt, "--output-format", "json"]
        ++ (if pyTruthyStr system_prompt then ["--system-prompt", system_prompt.getD ""] else [])
        ++ ClaudeBridge.resumeArgs st.sessions chat_id system_prompt
        ++ st.config.build_cli_args ∧
    (ClaudeBridge.resumeArgs st.sessions chat_id system_prompt ≠ [] ↔
      pyTruthyStr system_prompt = false ∧ (dictGet st.sessions chat_id).isSome = true) ∧
    (∀ s, dictGet st.sessions chat_id = some s → pyTruthyStr system_prompt = false →
      ClaudeBridge.resumeArgs st.sessions chat_id system_prompt = ["--resume", s.session_id]) ∧
    (pyTruthyStr system_prompt = true →
      ClaudeBridge.resumeArgs st.sessions chat_id system_prompt = []) := by
  refine ⟨?_, ?_, ?_, ?_⟩
  · unfold ClaudeBridge.buildCmd ClaudeBridge.resumeArgs
    cases hs : dictGet st.sessions chat_id <;>
      cases ht : pyTruthyStr system_prompt <;> simp [hs, ht]
  · unfold ClaudeBridge.resumeArgs
    cases hs : dictGet st.sessions chat_id <;>
      cases ht : pyTruthyStr system_prompt <;> simp [hs, ht]
  · intro s hs ht
    unfold ClaudeBridge.resumeArgs
    simp [hs, ht]
  · intro ht
    unfold ClaudeBridge.resumeArgs
    cases hs : dictGet st.sessions chat_id <;> simp [hs, ht]

/-- Witness for C4 (amended): with a stored session, an absent system
prompt yields the resume flag with the stored token, and a non-empty
system prompt suppresses it. -/
theorem c4_resume_policy_witness :
    ClaudeBridge.resumeArgs [(1, sess1)] 1 none = ["--resume", "tok-1"] ∧
    ClaudeBridge.resumeArgs [(1, sess1)] 1 (some "be brief") = [] :=
  ⟨(c4_resume_policy { sampleBridge with sessions := [(1, sess1)] } "p" 1 none).2.2.1 sess1
      (by decide) (by decide),
   (c4_resume_policy { sampleBridge with sessions := [(1, sess1)] } "p" 1
      (some "be brief")).2.2.2 (by decide)⟩

/-! ## Bridge session lemmas -/

theorem save_sessions_sessions (b : BridgeState) :
    (ClaudeBridge.save_sessions b).sessions = b.sessions := by
  unfold ClaudeBridge.save_sessions
  split <;> rfl

theorem pyTruthyStr_iff {o : Option String} :
    pyTruthyStr o = true ↔ ∃ s, o = some s ∧ s ≠ "" := by
  cases o with
  | none => simp [pyTruthyStr]
  | some s => simp [pyTruthyStr]

/-- C5 counterexample: a successful response that carries a session token
equal to the empty string (`{"result": "ok", "session_id": ""}`) leaves
the session table untouched and persists nothing, although the claim
requires an update and an immediate persist for every successful response
carrying a token: `if response.success and response.session_id` treats
the empty token as absent. -/
theorem c5_session_counterexample :
    (ClaudeBridge._execute sampleBridge "p" 1 none
        (.exited 0 (some (.obj [("result", .str "ok"), ("session_id", .str "")])) "") "T").2.1.success
      = true ∧
    (ClaudeBridge._execute sampleBridge "p" 1 none
        (.exited 0 (some (.obj [("result", .str "ok"), ("session_id", .str "")])) "") "T").2.1.session_id
      = some "" ∧
    (ClaudeBridge._execute sampleBridge "p" 1 none
        (.exited 0 (some (.obj [("result", .str "ok"), ("session_id", .str "")])) "") "T").2.2.sessions
      = [] ∧
    ¬ ((dictGet (ClaudeBridge._execute sampleBridge "p" 1 none
        (.exited 0 (some (.obj [("result", .str "ok"), ("session_id", .str "")])) "") "T").2.2.sessions
          1).isSome = true) ∧
    (ClaudeBridge._execute sampleBridge "p" 1 none
        (.exited 0 (some (.obj [("result", .str "ok"), ("session_id", .str "")])) "") "T").2.2.file
      = none := by
  refine ⟨rfl, rfl, rfl, by decide, rfl⟩

/-- C5 (amended): after `_execute`, if the response succeeded and carries
a non-empty session token, the chat's session entry is created or updated
(token replaced, count incremented and `created_at` kept on update, fresh
count and timestamps on creation, `last_used` refreshed), other chats are
untouched, and — when a sessions file is configured — the whole new table
is written through within the same operation; in every other outcome
(failure, no token, or empty token) the table and the file are left
unchanged. -/
theorem c5_session_write_through (st : BridgeState) (prompt : String) (chat_id : Int)
    (system_prompt : Option String) (outcome : ExecOutcome) (now : String)
    (cmd : List String) (resp : ClaudeResponse) (st' : BridgeState)
    (h : ClaudeBridge._execute st prompt chat_id system_prompt outcome now = (cmd, resp, st')) :
    (∀ sid, resp.success = true → resp.session_id = some sid → sid ≠ "" →
      (∃ e, dictGet st'.sessions chat_id = some e ∧ e.session_id = sid ∧ e.last_used = now ∧
        (match dictGet st.sessions chat_id with
         | some old => e.message_count = old.message_count + 1 ∧ e.created_at = old.created_at
         | none => e.message_count = 0 ∧ e.created_at = now)) ∧
      (∀ cid', cid' ≠ chat_id → dictGet st'.sessions cid' = dictGet st.sessions cid') ∧
      (st.has_sessions_file = true → st'.file = some (some (encodeSessions st'.sessions))) ∧
      (st.has_sessions_file = false → st'.file = st.file)) ∧
    ((resp.success = false ∨ resp.session_id = none ∨ resp.session_id = some "") →
      st'.sessions = st.sessions ∧ st'.file = st.file) := by
  cases outcome with
  | oserror msg =>
    simp only [ClaudeBridge._execute] at h
    injection h with h₁ h₂
    injection h₂ with h₂ h₃
    subst h₂; subst h₃
    constructor
    · intro sid hs
      simp at hs
    · intro _
      exact ⟨rfl, rfl⟩
  | timeout =>
    simp only [ClaudeBridge._execute] at h
    injection h with h₁ h₂
    injection h₂ with h₂ h₃
    subst h₂; subst h₃
    constructor
    · intro sid hs
      simp at hs
    · intro _
      exact ⟨rfl, rfl⟩
  | exited code stdout stderr =>
    simp only [ClaudeBridge._execute] at h
    split at h
    · -- nonzero exit code
      injection h with h₁ h₂
      injection h₂ with h₂ h₃
      subst h₂; subst h₃
      constructor
      · intro sid hs
        simp at hs
      · intro _
        exact ⟨rfl, rfl⟩
    · cases hp : ClaudeResponse.parse stdout with
      | error e =>
        rw [hp] at h
        injection h with h₁ h₂
        injection h₂ with h₂ h₃
        subst h₂; subst h₃
        constructor
        · intro sid hs
          simp at hs
        · intro _
          exact ⟨rfl, rfl⟩
      | ok response =>
        rw [hp] at h
        simp only at h
        split at h
        case isTrue hcond =>
          injection h with h₁ h₂
          injection h₂ with h₂ h₃
          subst h₂; subst h₃
          rw [save_sessions_sessions]
          constructor
          · intro sid hs hsid hne
            refine ⟨?_, ?_, ?_, ?_⟩
            · cases hold : dictGet st.sessions chat_id with
              | some old =>
                refine ⟨_, dictGet_set_self _ _ _, ?_, ?_, ?_⟩
                · simp [ClaudeSession.increment, hsid]
                · simp [ClaudeSession.increment]
                · exact ⟨by simp [ClaudeSession.increment], by simp [ClaudeSession.increment]⟩
              | none =>
                refine ⟨_, dictGet_set_self _ _ _, ?_, ?_, ?_⟩
                · simp [hsid]
                · rfl
                · exact ⟨rfl, rfl⟩
            · intro cid' hcid'
              cases hold : dictGet st.sessions chat_id <;>
                exact dictGet_set_ne _ _ _ _ hcid'
            · intro hf
              simp [ClaudeBridge.save_sessions, hf]
            · intro hf
              simp [ClaudeBridge.save_sessions, hf]
          · intro hdisj
            obtain ⟨hsucc, htruthy⟩ :
                response.success = true ∧ pyTruthyStr response.session_id = true := by
              simpa using hcond
            rcases pyTruthyStr_iff.mp htruthy with ⟨s, hsid, hne⟩
            rcases hdisj with hd | hd | hd
            · rw [hsucc] at hd
              cases hd
            · rw [hsid] at hd
              cases hd
            · rw [hsid] at hd
              injection hd with hd
              exact absurd hd hne
        case isFalse hcond =>
          injection h with h₁ h₂
          injection h₂ with h₂ h₃
          subst h₂; subst h₃
          constructor
          · intro sid hs hsid hne
            exact absurd
              (by simp [hs, pyTruthyStr_iff.mpr ⟨sid, hsid, hne⟩] :
                (response.success && pyTruthyStr response.session_id) = true) hcond
          · intro _
            exact ⟨rfl, rfl⟩

/-- Witness for C5 (amended): a successful response with token `"s-2"`
for a chat with a stored session increments the count, replaces the
token, refreshes `last_used` and writes the table through. -/
theorem c5_session_write_through_witness :
    ∃ e, dictGet (ClaudeBridge._execute { sampleBridge with sessions := [(1, sess1)] } "p" 1 none
        (.exited 0 (some (.obj [("result", .str "ok"), ("session_id", .str "s-2")])) "")
        "T2").2.2.sessions 1 = some e ∧
      e.session_id = "s-2" ∧ e.last_used = "T2" ∧
      (match dictGet ({ sampleBridge with sessions := [(1, sess1)] } : BridgeState).sessions 1 with
       | some old => e.message_count = old.message_count + 1 ∧ e.created_at = old.created_at
       | none => e.message_count = 0 ∧ e.created_at = "T2") :=
  ((c5_session_write_through { sampleBridge with sessions := [(1, sess1)] } "p" 1 none
      (.exited 0 (some (.obj [("result", .str "ok"), ("session_id", .str "s-2")])) "") "T2"
      _ _ _ rfl).1 "s-2" rfl rfl (by decide)).1

/-- C7: the claim says the parser tolerates both wire shapes and returns
a parse-failure value rather than raising whenever neither shape yields a
usable result.  The code violates this: `parse("[1]")` reaches
`event.get` on an int and raises `AttributeError`; `parse("\"hello\"")`
reaches `data.get` on a str and raises; `parse("5")` raises `TypeError`
at `"error" in data`; and `parse("{}")` is marked successful although it
carries no result at all. -/
theorem c7_parse_crashes :
    ClaudeResponse.parse (some (.arr [.num 1])) = .error .attributeError ∧
    ClaudeResponse.parse (some (.str "hello")) = .error .attributeError ∧
    ClaudeResponse.parse (some (.num 5)) = .error .typeError ∧
    (ClaudeResponse.parse (some (.obj []))).toOption.map ClaudeResponse.success = some true ∧
    (ClaudeResponse.parse (some (.obj []))).toOption.map ClaudeResponse.result = some none ∧
    ClaudeResponse.parse none
      = .ok { success := false, error := some "Failed to parse JSON response",
              raw := some none } ∧
    (ClaudeResponse.parse (some (.arr []))).toOption.map ClaudeResponse.success = some false ∧
    (ClaudeResponse.parse (some (.arr []))).toOption.map ClaudeResponse.error
      = some (some "No result in Claude response") :=
  ⟨rfl, rfl, rfl, rfl, rfl, rfl, rfl, rfl⟩

/-- C8: the claim says `load_sessions` never raises on a corrupt file and
leaves the table empty.  The code violates both: a file decoding to the
JSON array `[]` raises `AttributeError` (`data.items()` on a list) out of
the `except (JSONDecodeError, KeyError)` clause, and a dict whose second
entry lacks required keys leaves a partially loaded, non-empty table
behind (the `KeyError` is caught after the first entry was inserted).
Missing files and undecodable files are tolerated as claimed. -/
theorem c8_load_sessions_crashes :
    ClaudeBridge.load_sessions { sampleBridge with file := some (some (.arr [])) } "T"
      = ({ sampleBridge with file := some (some (.arr [])) }, some PyExn.attributeError) ∧
    ClaudeBridge.load_sessions
        { sampleBridge with
          file := some (some (.obj
            [("1", .obj [("chat_id", .num 1), ("session_id", .str "s")]),
             ("2", .obj [])])) } "T"
      = ({ sampleBridge with
            file := some (some (.obj
              [("1", .obj [("chat_id", .num 1), ("session_id", .str "s")]),
               ("2", .obj [])]))
            sessions := [(1, { chat_id := 1, session_id := "s", message_count := 0,
                               created_at := "T", last_used := "T" })] }, none) ∧
    ClaudeBridge.load_sessions sampleBridge "T" = (sampleBridge, none) ∧
    ClaudeBridge.load_sessions { sampleBridge with file := some none } "T"
      = ({ sampleBridge with file := some none }, none) :=
  ⟨rfl, rfl, rfl, rfl⟩

/-- C9 counterexample: `Daemon.stop` on a state with a connected client,
a bridge and one pending debounce entry performs cancel, then
*disconnect*, then save — not the claimed cancel, save, disconnect
order: the code closes the platform connection before persisting the
sessions. -/
theorem c9_stop_order_counterexample :
    (Daemon.stop sampleDaemon).1
        = [.cancelTimers 1, .disconnect, .saveSessions] ∧
    ¬ ((Daemon.stop sampleDaemon).1
        = [.cancelTimers 1, .saveSessions, .disconnect]) := by
  exact ⟨by decide, by decide⟩

/-- C9 (amended): on a state with a connected client and a bridge,
`stop` cancels every pending debounce timer first (afterwards the pending
map is empty, so no timer callback can fire), then closes the platform
connection, and then persists the session table one final time (the
bridge's sessions are written through when a sessions file is
configured). -/
theorem c9_stop_order (st : DaemonState) (hc : st.client = true)
    (hb : st.bridge.isSome = true) :
    (Daemon.stop st).1
        = [.cancelTimers st.debounce.pending.length, .disconnect, .saveSessions] ∧
    (Daemon.stop st).2.debounce.pending = [] ∧
    (∀ key, DebounceManager.fireTimer (Daemon.stop st).2.debounce key
        = (none, (Daemon.stop st).2.debounce)) ∧
    (∀ b, st.bridge = some b → b.has_sessions_file = true →
      (Daemon.stop st).2.bridge
        = some { b with file := some (some (encodeSessions b.sessions)) }) := by
  cases hbr : st.bridge with
  | none => rw [hbr] at hb; cases hb
  | some b =>
    refine ⟨?_, ?_, ?_, ?_⟩
    · simp [Daemon.stop, hc, hbr, DebounceManager.cancel_all]
    · simp [Daemon.stop, DebounceManager.cancel_all]
    · intro key
      simp [Daemon.stop, DebounceManager.cancel_all, DebounceManager.fireTimer, dictGet]
    · intro b' hb' hf
      injection hb' with hb'
      subst hb'
      simp [Daemon.stop, hbr, ClaudeBridge.save_sessions, hf]

/-- Witness for C9 (amended): the populated sample daemon state. -/
theorem c9_stop_order_witness :
    (Daemon.stop sampleDaemon).1 = [.cancelTimers 1, .disconnect, .saveSessions] ∧
    (Daemon.stop sampleDaemon).2.debounce.pending = [] ∧
    (Daemon.stop sampleDaemon).2.bridge
      = some { ({ sampleBridge with sessions := [(1, sess1)] } : BridgeState) with
          file := some (some (encodeSessions [(1, sess1)])) } :=
  ⟨(c9_stop_order sampleDaemon rfl rfl).1,
   (c9_stop_order sampleDaemon rfl rfl).2.1,
   (c9_stop_order sampleDaemon rfl rfl).2.2.2 _ rfl rfl⟩

/-- C10 counterexample: two *distinct* trigger rules that share a pattern
string (`trigHi` replies, `trigHiIgnore` ignores) land on the same
pending-map key `(chat_id, pattern)`: scheduling both in chat 1 leaves a
single entry (the second call returns `false` and overwrites), not the
two separate entries the claim requires for every pair of distinct
rules. -/
theorem c10_pending_counterexample :
    trigHi ≠ trigHiIgnore ∧
    (DebounceManager.schedule (DebounceManager.schedule ⟨[]⟩ 1 trigHi msgA).2
        1 trigHiIgnore msgB).1 = false ∧
    (DebounceManager.schedule (DebounceManager.schedule ⟨[]⟩ 1 trigHi msgA).2
        1 trigHiIgnore msgB).2.pending.length = 1 ∧
    ¬ ((DebounceManager.schedule (DebounceManager.schedule ⟨[]⟩ 1 trigHi msgA).2
        1 trigHiIgnore msgB).2.pending.length = 2) := by
  refine ⟨by decide, by decide, by decide, by decide⟩

/-- C10 (amended): the pending map keeps exactly one entry per
`(chat_id, pattern)` key.  Rules with *distinct patterns* get separate
entries, each firing with its own rule; scheduling any rule with the same
pattern for the same chat (in particular the same rule) returns `false`
and overwrites the single existing entry instead of adding one; and
`schedule` preserves distinctness of the keys in the map. -/
theorem c10_pending_keying (chat_id : Int) (r₁ r₂ : TriggerConfig) (m₁ m₂ : ScheduleInput)
    (hp : r₁.pattern ≠ r₂.pattern) :
    (DebounceManager.schedule (DebounceManager.schedule ⟨[]⟩ chat_id r₁ m₁).2
        chat_id r₂ m₂).2.pending.length = 2 ∧
    ((DebounceManager.fireTimer (DebounceManager.schedule
        (DebounceManager.schedule ⟨[]⟩ chat_id r₁ m₁).2 chat_id r₂ m₂).2
        (DebounceManager.key chat_id r₁)).1.map DebouncedMessage.trigger = some r₁) ∧
    ((DebounceManager.fireTimer (DebounceManager.schedule
        (DebounceManager.schedule ⟨[]⟩ chat_id r₁ m₁).2 chat_id r₂ m₂).2
        (DebounceManager.key chat_id r₂)).1.map DebouncedMessage.trigger = some r₂) ∧
    (∀ (r₃ : TriggerConfig) (m₃ : ScheduleInput), r₃.pattern = r₁.pattern →
      (DebounceManager.schedule (DebounceManager.schedule
          (DebounceManager.schedule ⟨[]⟩ chat_id r₁ m₁).2 chat_id r₂ m₂).2
          chat_id r₃ m₃).1 = false ∧
      (DebounceManager.schedule (DebounceManager.schedule
          (DebounceManager.schedule ⟨[]⟩ chat_id r₁ m₁).2 chat_id r₂ m₂).2
          chat_id r₃ m₃).2.pending.length = 2) ∧
    (∀ (st : DebounceState) (c : Int) (r : TriggerConfig) (m : ScheduleInput),
      (st.pending.map Prod.fst).Nodup →
      (((DebounceManager.schedule st c r m).2.pending.map Prod.fst).Nodup)) := by
  have hk₁₂ : DebounceManager.key chat_id r₁ ≠ DebounceManager.key chat_id r₂ := by
    intro h
    exact hp (congrArg Prod.snd h)
  have hstep :
      (DebounceManager.schedule (DebounceManager.schedule ⟨[]⟩ chat_id r₁ m₁).2
        chat_id r₂ m₂).2.pending
      = [(DebounceManager.key chat_id r₁, entryFor chat_id r₁ m₁),
         (DebounceManager.key chat_id r₂, entryFor chat_id r₂ m₂)] := by
    simp [DebounceManager.schedule, dictGet, dictSet, hk₁₂, Ne.symm hk₁₂, entryFor]
  refine ⟨?_, ?_, ?_, ?_, ?_⟩
  · rw [hstep]; rfl
  · simp only [DebounceManager.fireTimer, hstep]
    simp [dictGet, hk₁₂, Ne.symm hk₁₂, entryFor]
  · simp only [DebounceManager.fireTimer, hstep]
    simp [dictGet, hk₁₂, Ne.symm hk₁₂, entryFor]
  · intro r₃ m₃ h₃
    have hk₃₁ : DebounceManager.key chat_id r₃ = DebounceManager.key chat_id r₁ := by
      simp [DebounceManager.key, h₃]
    have hget : dictGet (DebounceManager.schedule (DebounceManager.schedule ⟨[]⟩ chat_id r₁ m₁).2
          chat_id r₂ m₂).2.pending (DebounceManager.key chat_id r₃)
        = some (entryFor chat_id r₁ m₁) := by
      rw [hstep, hk₃₁]
      simp [dictGet]
    rw [schedule_present _ _ _ _ _ hget]
    constructor
    · rfl
    · simp only [hstep, hk₃₁]
      simp [dictSet]
  · intro st c r m hnd
    cases hg : dictGet st.pending (DebounceManager.key c r) with
    | some e =>
      rw [schedule_present st c r m e hg]
      exact dictSet_keys_nodup st.pending _ _ hnd
    | none =>
      rw [schedule_absent st c r m hg]
      exact dictSet_keys_nodup st.pending _ _ hnd

/-- Witness for C10 (amended): `trigHi` and `trigAsk` have distinct
patterns, so they occupy two entries, each firing with its own rule. -/
theorem c10_pending_keying_witness :
    (DebounceManager.schedule (DebounceManager.schedule ⟨[]⟩ 1 trigHi msgA).2
        1 trigAsk msgB).2.pending.length = 2 ∧
    ((DebounceManager.fireTimer (DebounceManager.schedule
        (DebounceManager.schedule ⟨[]⟩ 1 trigHi msgA).2 1 trigAsk msgB).2
        (DebounceManager.key 1 trigAsk)).1.map DebouncedMessage.trigger = some trigAsk) :=
  ⟨(c10_pending_keying 1 trigHi trigAsk msgA msgB (by decide)).1,
   (c10_pending_keying 1 trigHi trigAsk msgA msgB (by decide)).2.2.1⟩

end TelegramTelethon
